import Mathlib

/-!
Shallow embedding of the MultiInstance process-control core
(src/src/core/instance.rs, process.rs, app_state.rs, monitor.rs, profile.rs,
resource.rs) and proofs about it.

Effectful Rust code is modelled by passing the outcomes of OS / filesystem
calls explicitly ("world" records): the embedded functions are pure and
compute the same state updates the Rust code performs for those outcomes.
Clock reads (Utc::now, Instant::now) become explicit Nat-valued time
arguments.  Machine integers are modelled as Nat / Int (none of the claims
depend on overflow behaviour); floating-point resource figures are modelled
as Nat, which is faithful for the equality-with-default and
delta-over-elapsed properties at issue.
-/

namespace MultiInstance

/-! Association-list helpers standing in for Rust HashMap (insert replaces,
remove deletes; keys are unique in every reachable state). -/

def lookupKey {α : Type} : Nat → List (Nat × α) → Option α
  | _, [] => none
  | k, p :: rest => if p.1 = k then some p.2 else lookupKey k rest

def upsert {α : Type} (k : Nat) (v : α) : List (Nat × α) → List (Nat × α)
  | [] => [(k, v)]
  | p :: rest => if p.1 = k then (k, v) :: rest else p :: upsert k v rest

def eraseKey {α : Type} : Nat → List (Nat × α) → List (Nat × α)
  | _, [] => []
  | k, p :: rest => if p.1 = k then rest else p :: eraseKey k rest

abbrev InstanceId := Nat
abbrev ProfileId := Nat
abbrev Pid := Nat
abbrev Path := String

/-- Status of an instance (instance.rs, InstanceStatus). -/
inductive InstanceStatus
  | Starting
  | Running
  | Paused
  | Stopping
  | Stopped
  | Crashed
  | Unknown
deriving DecidableEq, Repr

/-- Mirror of InstanceStatus::is_active: Starting, Running and Paused are active. -/
def InstanceStatus.is_active : InstanceStatus → Bool
  | .Starting => true
  | .Running => true
  | .Paused => true
  | _ => false

/-- Mirror of ResourceLimits (resource.rs). -/
structure ResourceLimits where
  cpu_percent : Nat
  cpu_affinity : List Nat
  memory_mb : Nat
  network_kbps : Nat
  priority : Int
  gpu_memory_mb : Nat
deriving DecidableEq, Repr

/-- Mirror of ResourceLimits::default (all fields zero / empty). -/
def ResourceLimits.zero : ResourceLimits :=
  { cpu_percent := 0, cpu_affinity := [], memory_mb := 0, network_kbps := 0,
    priority := 0, gpu_memory_mb := 0 }

/-- Mirror of ResourceLimits::has_limits. -/
def ResourceLimits.has_limits (l : ResourceLimits) : Bool :=
  decide (0 < l.cpu_percent) || !l.cpu_affinity.isEmpty || decide (0 < l.memory_mb)
    || decide (0 < l.network_kbps) || decide (l.priority ≠ 0) || decide (0 < l.gpu_memory_mb)

/-- Mirror of ResourceUsage (resource.rs); float fields modelled as Nat. -/
structure ResourceUsage where
  cpu_percent : Nat
  memory_bytes : Nat
  virtual_memory_bytes : Nat
  network_rx_bytes : Nat
  network_tx_bytes : Nat
  network_rx_rate : Nat
  network_tx_rate : Nat
  disk_read_bytes : Nat
  disk_write_bytes : Nat
  open_files : Nat
  thread_count : Nat
  gpu_percent : Nat
  gpu_memory_bytes : Nat
deriving DecidableEq, Repr

/-- Mirror of ResourceUsage::default (all fields zero). -/
def ResourceUsage.zero : ResourceUsage :=
  { cpu_percent := 0, memory_bytes := 0, virtual_memory_bytes := 0,
    network_rx_bytes := 0, network_tx_bytes := 0, network_rx_rate := 0,
    network_tx_rate := 0, disk_read_bytes := 0, disk_write_bytes := 0,
    open_files := 0, thread_count := 0, gpu_percent := 0, gpu_memory_bytes := 0 }

/-- Mirror of InstanceConfig (instance.rs). -/
structure InstanceConfig where
  name : String
  executable_path : Path
  arguments : List String
  working_directory : Option Path
  environment : List (String × String)
  resource_limits : ResourceLimits
  data_directory : Option Path
  bypass_single_instance : Bool
  use_environment_isolation : Bool
  group : Option String
  icon_path : Option Path
  notes : String
  auto_restart : Bool
  restart_delay_secs : Nat
  hide_from_taskbar : Bool
deriving DecidableEq, Repr

/-- Mirror of InstanceConfig::default. -/
def InstanceConfig.defaultConfig : InstanceConfig :=
  { name := "", executable_path := "", arguments := [], working_directory := none,
    environment := [], resource_limits := ResourceLimits.zero, data_directory := none,
    bypass_single_instance := true, use_environment_isolation := false,
    group := none, icon_path := none, notes := "", auto_restart := false,
    restart_delay_secs := 5, hide_from_taskbar := false }

/-- Mirror of Instance (instance.rs); timestamps are Nat-valued clock readings. -/
structure Instance where
  id : InstanceId
  config : InstanceConfig
  status : InstanceStatus
  pid : Option Pid
  created_at : Nat
  started_at : Option Nat
  stopped_at : Option Nat
  resource_usage : ResourceUsage
  restart_count : Nat
  last_error : Option String
deriving DecidableEq, Repr

/-- Mirror of Instance::new; the freshly generated Uuid becomes an explicit id. -/
def Instance.new (id : InstanceId) (now : Nat) (config : InstanceConfig) : Instance :=
  { id := id, config := config, status := .Stopped, pid := none, created_at := now,
    started_at := none, stopped_at := none, resource_usage := ResourceUsage.zero,
    restart_count := 0, last_error := none }

/-- Mirror of Instance::should_auto_restart. -/
def Instance.should_auto_restart (i : Instance) : Bool :=
  i.config.auto_restart && decide (i.status = .Crashed)

/-- Mirror of Instance::mark_starting. -/
def Instance.mark_starting (i : Instance) (now : Nat) (pid : Pid) : Instance :=
  { i with status := .Starting, pid := some pid, started_at := some now,
           stopped_at := none, last_error := none }

/-- Mirror of Instance::mark_running. -/
def Instance.mark_running (i : Instance) : Instance :=
  { i with status := .Running }

/-- Mirror of Instance::mark_stopped. -/
def Instance.mark_stopped (i : Instance) (now : Nat) : Instance :=
  { i with status := .Stopped, stopped_at := some now,
           resource_usage := ResourceUsage.zero }

/-- Mirror of Instance::mark_crashed. -/
def Instance.mark_crashed (i : Instance) (now : Nat) (error : Option String) : Instance :=
  { i with status := .Crashed, stopped_at := some now, last_error := error,
           resource_usage := ResourceUsage.zero }

/-- Mirror of Instance::mark_paused. -/
def Instance.mark_paused (i : Instance) : Instance :=
  { i with status := .Paused }

/-- Mirror of Instance::increment_restart_count. -/
def Instance.increment_restart_count (i : Instance) : Instance :=
  { i with restart_count := i.restart_count + 1 }

/-- Mirror of Instance::update_resource_usage. -/
def Instance.update_resource_usage (i : Instance) (usage : ResourceUsage) : Instance :=
  { i with resource_usage := usage }

/-! ProcessManager (process.rs).  The HashMap of Child handles is modelled by
the list of tracked InstanceIds; the behaviour of each Child (try_wait) and of
the platform calls is delivered through explicit world records. -/

/-- Mirror of Path::join for the string-modelled paths. -/
def pathJoin (p : Path) (s : String) : Path := p ++ "/" ++ s

/-- Mirror of Path::parent: the portion before the final separator. -/
def parentDir (p : Path) : Option Path :=
  let parts := p.splitOn "/"
  if parts.length ≤ 1 then none
  else some (String.intercalate "/" parts.dropLast)

/-- Model of std::process::Command as built by ProcessManager::spawn: program,
working directory, arguments, and the ordered list of env-var overrides
(std::process::Command applies later calls of env(k, _) over earlier ones). -/
structure LaunchCommand where
  program : Path
  cwd : Option Path
  args : List String
  env : List (String × String)
deriving DecidableEq, Repr

/-- Mirror of Command::env: record one override (later entries win). -/
def LaunchCommand.setEnv (c : LaunchCommand) (k v : String) : LaunchCommand :=
  { c with env := c.env ++ [(k, v)] }

/-- Effective value of an override after all env(k, v) calls: the last one wins;
none means the variable is inherited from the launcher, not rewritten. -/
def LaunchCommand.envValue (c : LaunchCommand) (k : String) : Option String :=
  (c.env.reverse.find? (fun kv => kv.1 = k)).map Prod.snd

/-- Mirror of ProcessManager (process.rs): `children` is the key set of the
Child-handle HashMap, `instance_data_dir` the base data directory. -/
structure ProcessManager where
  children : List InstanceId
  instance_data_dir : Path
deriving DecidableEq, Repr

/-- Makes HashMap::insert on the key set of the children map. -/
def insertId (id : InstanceId) (l : List InstanceId) : List InstanceId :=
  if id ∈ l then l else id :: l

/-- Makes HashMap::remove on the key set of the children map. -/
def removeId (id : InstanceId) (l : List InstanceId) : List InstanceId :=
  l.filter (fun x => x ≠ id)

/-- Outcomes of the OS / filesystem calls one ProcessManager::spawn performs:
whether config.executable_path.exists(), whether the create_dir_all chain in
get_or_create_instance_data_dir succeeds, and the pid returned by
Command::spawn (none models a spawn failure). -/
structure SpawnWorld where
  exe_exists : Bool
  create_dir_ok : Bool
  os_spawn : Option Pid
deriving DecidableEq, Repr

/-- Error classes ProcessManager::spawn can bail with (anyhow errors in the
source): the missing-executable NotFound bail, a data-directory filesystem
error, and an OS spawn failure. -/
inductive SpawnError
  | NotFound (path : Path)
  | DataDir
  | OsSpawnFailed
deriving DecidableEq, Repr

/-- Result of a successful ProcessManager::spawn: the mutated instance, the
manager with the child tracked, the command that was launched, and the pid. -/
structure SpawnOk where
  inst : Instance
  pm : ProcessManager
  cmd : LaunchCommand
  pid : Pid
deriving DecidableEq, Repr

/-- Mirror of get_or_create_instance_data_dir's path choice: the configured
custom directory, else instance_data_dir/id. -/
def ProcessManager.instance_data_path (pm : ProcessManager) (id : InstanceId)
    (config : InstanceConfig) : Path :=
  match config.data_directory with
  | some custom => custom
  | none => pathJoin pm.instance_data_dir (toString id)

/-- Mirror of ProcessManager::setup_isolation_env, macOS branch: HOME and the
XDG directories are redirected into the instance-private data directory. -/
def setup_isolation_env (cmd : LaunchCommand) (data_dir : Path) : LaunchCommand :=
  (((cmd.setEnv "HOME" data_dir).setEnv
      "XDG_DATA_HOME" (pathJoin data_dir "Library")).setEnv
      "XDG_CONFIG_HOME" (pathJoin (pathJoin data_dir "Library") "Preferences")).setEnv
      "XDG_CACHE_HOME" (pathJoin (pathJoin data_dir "Library") "Caches")

/-- Mirror of the command construction inside ProcessManager::spawn: working
directory (explicit, else executable's parent), arguments, isolation env only
when bypass_single_instance AND use_environment_isolation are both set, then
the custom environment entries. -/
def buildCommand (data_dir : Path) (config : InstanceConfig) : LaunchCommand :=
  let cmd : LaunchCommand :=
    { program := config.executable_path, cwd := none, args := [], env := [] }
  let cmd :=
    match config.working_directory with
    | some wd => { cmd with cwd := some wd }
    | none =>
        match parentDir config.executable_path with
        | some parent => { cmd with cwd := some parent }
        | none => cmd
  let cmd := { cmd with args := cmd.args ++ config.arguments }
  let cmd :=
    if config.bypass_single_instance && config.use_environment_isolation then
      setup_isolation_env cmd data_dir
    else cmd
  config.environment.foldl (fun c kv => c.setEnv kv.1 kv.2) cmd

/-- Mirror of ProcessManager::spawn.  The source validates only that the
executable exists; it performs no check of the instance's status. -/
def ProcessManager.spawn (pm : ProcessManager) (w : SpawnWorld) (now : Nat)
    (inst : Instance) : Except SpawnError SpawnOk :=
  if !w.exe_exists then .error (.NotFound inst.config.executable_path)
  else if !w.create_dir_ok then .error .DataDir
  else
    let data_dir := pm.instance_data_path inst.id inst.config
    let cmd := buildCommand data_dir inst.config
    match w.os_spawn with
    | none => .error .OsSpawnFailed
    | some pid =>
        .ok { inst := inst.mark_starting now pid,
              pm := { pm with children := insertId inst.id pm.children },
              cmd := cmd, pid := pid }

/-- Outcomes of the platform calls ProcessManager::stop performs. -/
structure StopWorld where
  terminate_ok : Bool
  kill_ok : Bool
deriving DecidableEq, Repr

/-- Mirror of ProcessManager::stop: with a pid, terminate gracefully, escalate
to kill on failure, and only then clear the child handle and mark Stopped; the
error of a failed kill propagates with nothing mutated.  Without a pid the
instance is still marked Stopped. -/
def ProcessManager.stop (pm : ProcessManager) (w : StopWorld) (now : Nat)
    (inst : Instance) : Except String (Instance × ProcessManager) :=
  match inst.pid with
  | some _ =>
      if w.terminate_ok || w.kill_ok then
        .ok (inst.mark_stopped now, { pm with children := removeId inst.id pm.children })
      else .error "kill failed"
  | none =>
      .ok (inst.mark_stopped now, { pm with children := removeId inst.id pm.children })

/-- Mirror of ProcessManager::kill. -/
def ProcessManager.kill (pm : ProcessManager) (kill_ok : Bool) (now : Nat)
    (inst : Instance) : Except String (Instance × ProcessManager) :=
  match inst.pid with
  | some _ =>
      if kill_ok then
        .ok (inst.mark_stopped now, { pm with children := removeId inst.id pm.children })
      else .error "kill failed"
  | none =>
      .ok (inst.mark_stopped now, { pm with children := removeId inst.id pm.children })

/-- Mirror of ProcessManager::pause: only under a known pid is
suspend_process attempted and, on success, the instance marked Paused; a
pid-less instance is untouched and the call still succeeds. -/
def ProcessManager.pause (pm : ProcessManager) (suspend_ok : Bool)
    (inst : Instance) : Except String (Instance × ProcessManager) :=
  match inst.pid with
  | some _ =>
      if suspend_ok then .ok (inst.mark_paused, pm) else .error "suspend failed"
  | none => .ok (inst, pm)

/-- Mirror of ProcessManager::resume. -/
def ProcessManager.resume (pm : ProcessManager) (resume_ok : Bool)
    (inst : Instance) : Except String (Instance × ProcessManager) :=
  match inst.pid with
  | some _ =>
      if resume_ok then .ok (inst.mark_running, pm) else .error "resume failed"
  | none => .ok (inst, pm)

/-- Outcome of Child::try_wait for a tracked child. -/
inductive TryWaitResult
  | exited (success : Bool) (detail : String)
  | still_running
  | wait_error (msg : String)
deriving DecidableEq, Repr

/-- Mirror of ProcessManager::check_process.  With a tracked child handle the
try_wait outcome is classified (clean exit → Stopped, abnormal exit → Crashed
with the exit detail, probe error → Crashed with the error message, still
running → Starting becomes Running); without one the result falls back to
platform::is_process_running on the pid, or false with no pid.  The children
map itself is not modified. -/
def ProcessManager.check_process (pm : ProcessManager) (tw : TryWaitResult)
    (pid_running : Bool) (now : Nat) (inst : Instance) : Bool × Instance :=
  if inst.id ∈ pm.children then
    match tw with
    | .exited true _ => (false, inst.mark_stopped now)
    | .exited false detail =>
        (false, inst.mark_crashed now (some ("Process exited with status: " ++ detail)))
    | .still_running =>
        (true, if inst.status = .Starting then inst.mark_running else inst)
    | .wait_error msg => (false, inst.mark_crashed now (some msg))
  else
    match inst.pid with
    | some _ => (pid_running, inst)
    | none => (false, inst)

/-! ResourceMonitor (monitor.rs).  Time is a Nat; an underlying sysinfo poll is
reported as the Bool component of refresh.  The network side is modelled in
full (counters, last_network samples, rate computation); the cpu / memory
figures get_system_resources copies straight out of sysinfo carry no logic and
are not needed by any claim. -/

/-- Mirror of NetworkInterface (resource.rs), the per-interface slice of
SystemResources. -/
structure NetworkInterface where
  name : String
  rx_bytes : Nat
  tx_bytes : Nat
  rx_rate : Nat
  tx_rate : Nat
deriving DecidableEq, Repr

/-- Entry of the last_network map: counters and the time they were recorded. -/
structure NetSample where
  rx : Nat
  tx : Nat
  time : Nat
deriving DecidableEq, Repr

/-- Mirror of ResourceMonitor (monitor.rs): the current sysinfo network
snapshot (name, total_received, total_transmitted), the last_network samples,
the throttle state, and the configured interval. -/
structure ResourceMonitor where
  networks : List (String × Nat × Nat)
  last_network : List (String × NetSample)
  last_update : Nat
  update_interval : Nat
deriving DecidableEq, Repr

/-- Mirror of ResourceMonitor::new: last_update is initialised to the
construction instant and the network maps start empty. -/
def ResourceMonitor.new (now : Nat) (update_interval_ms : Nat) : ResourceMonitor :=
  { networks := [], last_network := [], last_update := now,
    update_interval := update_interval_ms }

/-- Mirror of ResourceMonitor::refresh: a no-op before the interval has
elapsed since last_update, otherwise one OS poll (Bool result true) pulling
the current counters and resetting last_update. -/
def ResourceMonitor.refresh (m : ResourceMonitor) (now : Nat)
    (net : List (String × Nat × Nat)) : ResourceMonitor × Bool :=
  if now - m.last_update < m.update_interval then (m, false)
  else ({ m with networks := net, last_update := now }, true)

/-- Mirror of ResourceMonitor::update_network_rates: record the held counters
of every interface into last_network, stamped with the current instant. -/
def ResourceMonitor.update_network_rates (m : ResourceMonitor) (now : Nat) :
    ResourceMonitor :=
  { m with last_network :=
      m.networks.foldl (fun acc nd => (nd.1, NetSample.mk nd.2.1 nd.2.2 now) :: acc.filter (fun p => p.1 ≠ nd.1)) m.last_network }

/-- Lookup in the last_network map. -/
def lastSample (m : ResourceMonitor) (name : String) : Option NetSample :=
  (m.last_network.find? (fun p => p.1 = name)).map Prod.snd

/-- Mirror of the per-interface rate computation in
ResourceMonitor::get_system_resources: with no previous sample the rates are
zero; otherwise counter delta over elapsed time since that sample (u64
truncation of the f64 quotient becomes Nat division). -/
def networkRates (m : ResourceMonitor) (now : Nat) (name : String)
    (rx tx : Nat) : Nat × Nat :=
  match lastSample m name with
  | some s =>
      let elapsed := now - s.time
      if 0 < elapsed then ((rx - s.rx) / elapsed, (tx - s.tx) / elapsed)
      else (0, 0)
  | none => (0, 0)

def ResourceMonitor.network_snapshot (m : ResourceMonitor) (now : Nat) :
    List NetworkInterface :=
  m.networks.map (fun nd =>
    { name := nd.1, rx_bytes := nd.2.1, tx_bytes := nd.2.2,
      rx_rate := (networkRates m now nd.1 nd.2.1 nd.2.2).1,
      tx_rate := (networkRates m now nd.1 nd.2.1 nd.2.2).2 })

/-- Mirror of SharedResourceMonitor::refresh: the throttled inner refresh
followed unconditionally by update_network_rates. -/
def sharedRefresh (m : ResourceMonitor) (now : Nat)
    (net : List (String × Nat × Nat)) : ResourceMonitor × Bool :=
  let r := m.refresh now net
  (r.1.update_network_rates now, r.2)

/-! Profile (profile.rs) and AppState (app_state.rs).  AppState operations
return their result together with the successor state and a trace of the
observable side effects (database writes, OS spawns, sleeps, directory
removal); world records again carry the outcomes of the OS calls, indexed by
the id of the instance being operated on. -/

/-- Mirror of Profile (profile.rs). -/
structure Profile where
  id : ProfileId
  name : String
  description : String
  category : Option String
  instances : List InstanceConfig
  staggered_launch : Bool
  launch_delay_ms : Nat
  created_at : Nat
  modified_at : Nat
  last_used_at : Option Nat
  launch_count : Nat
  is_favorite : Bool
  icon_path : Option Path
  tags : List String
deriving DecidableEq, Repr

/-- Mirror of Profile::mark_used. -/
def Profile.mark_used (p : Profile) (now : Nat) : Profile :=
  { p with last_used_at := some now, launch_count := p.launch_count + 1 }

/-- Observable side effects of the AppState operations. -/
inductive Event
  | db_save (id : InstanceId)
  | db_update_status (id : InstanceId)
  | db_delete (id : InstanceId)
  | db_save_profile (id : ProfileId)
  | os_spawn_proc (id : InstanceId) (pid : Pid)
  | sleep_ms (ms : Nat)
  | remove_dir (p : Path)
deriving DecidableEq, Repr

/-- Error classes of the AppState commands, following the anyhow messages of
the source: unknown id (NotFound), operation illegal for the current status
(InvalidState), spawn failures, and platform-call failures. -/
inductive AppError
  | NotFoundErr
  | InvalidState (msg : String)
  | SpawnErr (e : SpawnError)
  | PlatformErr (msg : String)
deriving DecidableEq, Repr

/-- Mirror of AppState (app_state.rs): the instance collection, the profile
collection, the process manager, the persisted instance records, and the
recent-apps list.  Settings, quick launch, groups and the monitor state are
not touched by the operations under study. -/
structure AppState where
  instances : List (InstanceId × Instance)
  profiles : List (ProfileId × Profile)
  pm : ProcessManager
  db : List (InstanceId × Instance)
  recent_apps : List Path
deriving DecidableEq, Repr

/-- Mirror of AppState::add_recent_app: move-to-front, keep ten. -/
def addRecentApp (path : Path) (recent : List Path) : List Path :=
  (path :: recent.filter (fun p => p ≠ path)).take 10

/-- Mirror of AppState::create_instance: build the instance (id from the
fresh-id supply), record the recent app, optionally spawn, store it, persist
it.  On a spawn failure the error propagates with only the recent-apps list
already mutated, exactly as in the source. -/
def AppState.create_instance (s : AppState) (w : SpawnWorld) (now : Nat)
    (fresh : InstanceId) (config : InstanceConfig) (start : Bool) :
    Except SpawnError InstanceId × AppState × List Event :=
  if start then
    match s.pm.spawn w now (Instance.new fresh now config) with
    | .error e =>
        (.error e,
         { s with recent_apps := addRecentApp config.executable_path s.recent_apps }, [])
    | .ok r =>
        (.ok fresh,
         { s with recent_apps := addRecentApp config.executable_path s.recent_apps,
                  instances := upsert fresh r.inst s.instances, pm := r.pm,
                  db := upsert fresh r.inst s.db },
         [.os_spawn_proc fresh r.pid, .db_save fresh])
  else
    (.ok fresh,
     { s with recent_apps := addRecentApp config.executable_path s.recent_apps,
              instances := upsert fresh (Instance.new fresh now config) s.instances,
              db := upsert fresh (Instance.new fresh now config) s.db },
     [.db_save fresh])

/-- Mirror of AppState::start_instance: unknown id → NotFound; an active
instance → the "Instance is already running" bail before anything is touched;
otherwise spawn and persist the new status. -/
def AppState.start_instance (s : AppState) (w : SpawnWorld) (now : Nat)
    (id : InstanceId) : Except AppError Unit × AppState × List Event :=
  match lookupKey id s.instances with
  | none => (.error .NotFoundErr, s, [])
  | some inst =>
      if inst.status.is_active then
        (.error (.InvalidState "Instance is already running"), s, [])
      else
        match s.pm.spawn w now inst with
        | .error e => (.error (.SpawnErr e), s, [])
        | .ok r =>
            (.ok (),
             { s with instances := upsert id r.inst s.instances, pm := r.pm,
                      db := upsert id r.inst s.db },
             [.os_spawn_proc id r.pid, .db_update_status id])

/-- Mirror of AppState::stop_instance: a non-active instance is an immediate
no-op success. -/
def AppState.stop_instance (s : AppState) (w : StopWorld) (now : Nat)
    (id : InstanceId) : Except AppError Unit × AppState × List Event :=
  match lookupKey id s.instances with
  | none => (.error .NotFoundErr, s, [])
  | some inst =>
      if !inst.status.is_active then (.ok (), s, [])
      else
        match s.pm.stop w now inst with
        | .error m => (.error (.PlatformErr m), s, [])
        | .ok r =>
            (.ok (),
             { s with instances := upsert id r.1 s.instances, pm := r.2,
                      db := upsert id r.1 s.db },
             [.db_update_status id])

/-- Mirror of AppState::kill_instance (no status precondition). -/
def AppState.kill_instance (s : AppState) (kill_ok : Bool) (now : Nat)
    (id : InstanceId) : Except AppError Unit × AppState × List Event :=
  match lookupKey id s.instances with
  | none => (.error .NotFoundErr, s, [])
  | some inst =>
      match s.pm.kill kill_ok now inst with
      | .error m => (.error (.PlatformErr m), s, [])
      | .ok r =>
          (.ok (),
           { s with instances := upsert id r.1 s.instances, pm := r.2,
                    db := upsert id r.1 s.db },
           [.db_update_status id])

/-- Mirror of AppState::pause_instance (no status precondition). -/
def AppState.pause_instance (s : AppState) (suspend_ok : Bool)
    (id : InstanceId) : Except AppError Unit × AppState × List Event :=
  match lookupKey id s.instances with
  | none => (.error .NotFoundErr, s, [])
  | some inst =>
      match s.pm.pause suspend_ok inst with
      | .error m => (.error (.PlatformErr m), s, [])
      | .ok r =>
          (.ok (),
           { s with instances := upsert id r.1 s.instances, pm := r.2,
                    db := upsert id r.1 s.db },
           [.db_update_status id])

/-- Mirror of AppState::resume_instance (no status precondition). -/
def AppState.resume_instance (s : AppState) (resume_ok : Bool)
    (id : InstanceId) : Except AppError Unit × AppState × List Event :=
  match lookupKey id s.instances with
  | none => (.error .NotFoundErr, s, [])
  | some inst =>
      match s.pm.resume resume_ok inst with
      | .error m => (.error (.PlatformErr m), s, [])
      | .ok r =>
          (.ok (),
           { s with instances := upsert id r.1 s.instances, pm := r.2,
                    db := upsert id r.1 s.db },
           [.db_update_status id])

/-- Mirror of AppState::remove_instance: an active instance is rejected with
the "Cannot remove a running instance" bail before any mutation; otherwise the
persisted record is deleted, the data directory optionally removed, and the
in-memory entry dropped. -/
def AppState.remove_instance (s : AppState) (cleanup_data : Bool)
    (dir_exists : Bool) (id : InstanceId) :
    Except AppError Unit × AppState × List Event :=
  match lookupKey id s.instances with
  | none => (.error .NotFoundErr, s, [])
  | some inst =>
      if inst.status.is_active then
        (.error (.InvalidState "Cannot remove a running instance"), s, [])
      else
        let dirEvents :=
          if cleanup_data && dir_exists then
            [Event.remove_dir (pathJoin s.pm.instance_data_dir (toString id))]
          else []
        (.ok (),
         { s with instances := eraseKey id s.instances, db := eraseKey id s.db },
         [Event.db_delete id] ++ dirEvents)

/-- Launch loop of AppState::launch_profile: before every creation but the
first, a staggered profile sleeps the configured delay; each config is created
with start = true and the fresh-id supply advances by one per creation.  A
creation failure propagates immediately. -/
def launchLoop (w : InstanceId → SpawnWorld) (now delay : Nat) (staggered : Bool) :
    List InstanceConfig → Nat → Nat → AppState →
    Except SpawnError (List InstanceId) × AppState × List Event
  | [], _, _, s => (.ok [], s, [])
  | c :: rest, i, fresh, s =>
      let pre : List Event := if staggered && 0 < i then [.sleep_ms delay] else []
      match s.create_instance (w fresh) now fresh c true with
      | (.error e, s1, tr1) => (.error e, s1, pre ++ tr1)
      | (.ok id, s1, tr1) =>
          match launchLoop w now delay staggered rest (i + 1) (fresh + 1) s1 with
          | (.error e, s2, tr2) => (.error e, s2, pre ++ tr1 ++ tr2)
          | (.ok ids, s2, tr2) => (.ok (id :: ids), s2, pre ++ tr1 ++ tr2)

/-- Mirror of AppState::launch_profile: the profile data (staggering flag,
delay, configs) is read and mark_used applied under the lock, the lock is
released, then the instances are created sequentially and the profile is
persisted. -/
def AppState.launch_profile (s : AppState) (w : InstanceId → SpawnWorld)
    (now : Nat) (fresh : Nat) (profile_id : ProfileId) :
    Except AppError (List InstanceId) × AppState × List Event :=
  match lookupKey profile_id s.profiles with
  | none => (.error .NotFoundErr, s, [])
  | some prof =>
      let s0 := { s with profiles := upsert profile_id (prof.mark_used now) s.profiles }
      match launchLoop w now prof.launch_delay_ms prof.staggered_launch
              prof.instances 0 fresh s0 with
      | (.error e, s1, tr) => (.error (.SpawnErr e), s1, tr)
      | (.ok ids, s1, tr) => (.ok ids, s1, tr ++ [.db_save_profile profile_id])

/-- Outcomes the periodic resource tick observes for one instance: the
try_wait result of a tracked child, the pid-based liveness answer, and the
monitor's sample for the pid (none when the pid was absent from the last
refresh). -/
structure ProbeWorld where
  tw : TryWaitResult
  pid_running : Bool
  usage : Option ResourceUsage
deriving DecidableEq, Repr

/-- Per-instance body of AppState::update_resources: instances without a pid
are skipped; check_process runs first and only a still-running verdict lets
the monitor sample overwrite resource_usage. -/
def updateInstanceResources (pm : ProcessManager) (p : ProbeWorld) (now : Nat)
    (inst : Instance) : Instance :=
  match inst.pid with
  | none => inst
  | some _ =>
      let r := pm.check_process p.tw p.pid_running now inst
      if r.1 then
        match p.usage with
        | some u => r.2.update_resource_usage u
        | none => r.2
      else r.2

/-- Mirror of AppState::update_resources over the instance collection (the
monitor refresh itself is modelled separately by sharedRefresh). -/
def AppState.update_resources (s : AppState) (probe : InstanceId → ProbeWorld)
    (now : Nat) : AppState :=
  { s with instances :=
      s.instances.map (fun q => (q.1, updateInstanceResources s.pm (probe q.1) now q.2)) }

/-- Body of the auto-restart loop for one candidate id: read the configured
delay (default five seconds if the instance vanished), sleep it, then — if the
instance is still present — increment restart_count and respawn; a spawn
failure is logged and leaves the incremented instance in place. -/
def restartOne (w : InstanceId → SpawnWorld) (now : Nat) (s : AppState)
    (id : InstanceId) : AppState × List Event :=
  let delay :=
    match lookupKey id s.instances with
    | some i => i.config.restart_delay_secs
    | none => 5
  let sleepEv := Event.sleep_ms (delay * 1000)
  match lookupKey id s.instances with
  | none => (s, [sleepEv])
  | some inst =>
      let inst1 := inst.increment_restart_count
      match s.pm.spawn (w id) now inst1 with
      | .ok r =>
          ({ s with instances := upsert id r.inst s.instances, pm := r.pm },
           [sleepEv, .os_spawn_proc id r.pid])
      | .error _ =>
          ({ s with instances := upsert id inst1 s.instances }, [sleepEv])

/-- Sequential processing of the collected auto-restart candidates. -/
def restartLoop (w : InstanceId → SpawnWorld) (now : Nat) :
    List InstanceId → AppState → AppState × List Event
  | [], s => (s, [])
  | id :: rest, s =>
      let r1 := restartOne w now s id
      let r2 := restartLoop w now rest r1.1
      (r2.1, r1.2 ++ r2.2)

/-- Mirror of AppState::handle_auto_restarts: collect the ids satisfying
should_auto_restart, then process them one after the other. -/
def AppState.handle_auto_restarts (s : AppState) (w : InstanceId → SpawnWorld)
    (now : Nat) : AppState × List Event :=
  restartLoop w now ((s.instances.filter (fun q => q.2.should_auto_restart)).map Prod.fst) s

/-! Concrete fixtures used by witnesses and counterexamples. -/

/-- Process manager with no tracked children. -/
def pm0 : ProcessManager := { children := [], instance_data_dir := "/data/instances" }

/-- Config pointing at a concrete executable. -/
def cfgX : InstanceConfig :=
  { InstanceConfig.defaultConfig with
      executable_path := "/apps/tool",
      working_directory := some "/apps" }

/-- Freshly created (Stopped, pid-less) instance. -/
def inst0 : Instance := Instance.new 1 0 cfgX

/-- Running instance holding pid 7. -/
def instRunning : Instance :=
  { inst0 with status := .Running, pid := some 7, started_at := some 0 }

/-- World in which the executable exists, the data directory is created and
the OS spawn succeeds with pid 7. -/
def wOK : SpawnWorld := { exe_exists := true, create_dir_ok := true, os_spawn := some 7 }

/-- App state holding the single running instance under id 1. -/
def sRun : AppState :=
  { instances := [(1, instRunning)], profiles := [], pm := pm0,
    db := [(1, instRunning)], recent_apps := [] }

/-- Claim C8: start_instance on an instance whose status is active fails with
the InvalidState-class "Instance is already running" error and causes no side
effect — the state (instance fields, in-memory collection, persisted records)
is returned unchanged and the event trace is empty, so no process is spawned
and nothing is persisted. -/
theorem c8_start_active_invalid_state (s : AppState) (w : SpawnWorld) (now : Nat)
    (id : InstanceId) (inst : Instance)
    (hlook : lookupKey id s.instances = some inst)
    (hact : inst.status.is_active = true) :
    s.start_instance w now id =
      (.error (.InvalidState "Instance is already running"), s, []) := by
  unfold AppState.start_instance
  rw [hlook]
  simp [hact]

/-- Witness for C8 at the concrete running instance. -/
theorem c8_start_active_invalid_state_witness :
    sRun.start_instance wOK 5 1 =
      (.error (.InvalidState "Instance is already running"), sRun, []) :=
  c8_start_active_invalid_state sRun wOK 5 1 instRunning rfl rfl

/-- Claim C9: remove_instance on an instance whose status is active always
fails with the InvalidState-class "Cannot remove a running instance" error and
performs no mutation, for either value of cleanup_data: the state (in-memory
collection and persisted records) is returned unchanged and the event trace is
empty, so no record is deleted and no data directory is removed. -/
theorem c9_remove_active_invalid_state (s : AppState) (cleanup_data dir_exists : Bool)
    (id : InstanceId) (inst : Instance)
    (hlook : lookupKey id s.instances = some inst)
    (hact : inst.status.is_active = true) :
    s.remove_instance cleanup_data dir_exists id =
      (.error (.InvalidState "Cannot remove a running instance"), s, []) := by
  unfold AppState.remove_instance
  rw [hlook]
  simp [hact]

/-- Witness for C9 at the concrete running instance, with cleanup requested. -/
theorem c9_remove_active_invalid_state_witness :
    sRun.remove_instance true true 1 =
      (.error (.InvalidState "Cannot remove a running instance"), sRun, []) :=
  c9_remove_active_invalid_state sRun true true 1 instRunning rfl rfl

/-- Claim C10: on an instance with no pid, ProcessManager::pause and
ProcessManager::resume both return success and leave the instance (and the
manager) entirely unchanged, whatever the platform call would have answered;
hence a status can only become Paused through pause, or Running through
resume, when a pid is present. -/
theorem c10_pause_resume_no_pid :
    (∀ (pm : ProcessManager) (b : Bool) (inst : Instance), inst.pid = none →
        pm.pause b inst = .ok (inst, pm) ∧ pm.resume b inst = .ok (inst, pm)) ∧
    (∀ (pm : ProcessManager) (b : Bool) (inst : Instance) (out : Instance × ProcessManager),
        pm.pause b inst = .ok out → out.1.status = .Paused →
        inst.status = .Paused ∨ inst.pid.isSome = true) ∧
    (∀ (pm : ProcessManager) (b : Bool) (inst : Instance) (out : Instance × ProcessManager),
        pm.resume b inst = .ok out → out.1.status = .Running →
        inst.status = .Running ∨ inst.pid.isSome = true) := by
  refine ⟨?_, ?_, ?_⟩
  · intro pm b inst h
    rw [ProcessManager.pause, ProcessManager.resume, h]
    exact ⟨rfl, rfl⟩
  · intro pm b inst out hok hst
    cases hpid : inst.pid with
    | none =>
        rw [ProcessManager.pause, hpid] at hok
        cases hok
        exact Or.inl hst
    | some p => exact Or.inr rfl
  · intro pm b inst out hok hst
    cases hpid : inst.pid with
    | none =>
        rw [ProcessManager.resume, hpid] at hok
        cases hok
        exact Or.inl hst
    | some p => exact Or.inr rfl

/-- Witness for C10 at the concrete pid-less instance. -/
theorem c10_pause_resume_no_pid_witness :
    pm0.pause true inst0 = .ok (inst0, pm0) ∧ pm0.resume true inst0 = .ok (inst0, pm0) :=
  c10_pause_resume_no_pid.1 pm0 true inst0 rfl

/-- Claim C3: check_process classifies each tracked process exactly as the
spec states and never surfaces an error (its result is a plain liveness Bool
beside the reclassified instance): a clean exit marks the instance Stopped; an
abnormal exit marks it Crashed with the exit detail recorded in last_error; a
still-running process promotes Starting to Running on first confirmed
liveness and leaves any other status unchanged; and with no tracked child
handle the result falls back to the pid-based liveness answer alone (false
when no pid is known), leaving the instance untouched.  A failing liveness
probe is likewise reclassified (Crashed with the probe error in last_error),
not thrown. -/
theorem c3_check_process_classification (pm : ProcessManager) (tw : TryWaitResult)
    (pid_running : Bool) (now : Nat) (inst : Instance) :
    (inst.id ∈ pm.children →
      (∀ d, tw = .exited true d →
        pm.check_process tw pid_running now inst = (false, inst.mark_stopped now) ∧
        (pm.check_process tw pid_running now inst).2.status = .Stopped) ∧
      (∀ d, tw = .exited false d →
        (pm.check_process tw pid_running now inst).1 = false ∧
        (pm.check_process tw pid_running now inst).2.status = .Crashed ∧
        (pm.check_process tw pid_running now inst).2.last_error =
          some ("Process exited with status: " ++ d)) ∧
      (∀ m, tw = .wait_error m →
        (pm.check_process tw pid_running now inst).1 = false ∧
        (pm.check_process tw pid_running now inst).2.status = .Crashed ∧
        (pm.check_process tw pid_running now inst).2.last_error = some m) ∧
      (tw = .still_running →
        (inst.status = .Starting →
          pm.check_process tw pid_running now inst = (true, inst.mark_running)) ∧
        (inst.status ≠ .Starting →
          pm.check_process tw pid_running now inst = (true, inst)))) ∧
    (inst.id ∉ pm.children →
      (inst.pid.isSome = true →
        pm.check_process tw pid_running now inst = (pid_running, inst)) ∧
      (inst.pid = none →
        pm.check_process tw pid_running now inst = (false, inst))) := by
  constructor
  · intro hin
    refine ⟨?_, ?_, ?_, ?_⟩
    · rintro d rfl
      simp [ProcessManager.check_process, hin, Instance.mark_stopped]
    · rintro d rfl
      simp [ProcessManager.check_process, hin, Instance.mark_crashed]
    · rintro m rfl
      simp [ProcessManager.check_process, hin, Instance.mark_crashed]
    · rintro rfl
      constructor
      · intro hst
        simp [ProcessManager.check_process, hin, hst]
      · intro hst
        simp [ProcessManager.check_process, hin, hst]
  · intro hout
    constructor
    · intro hpid
      cases h : inst.pid with
      | none => rw [h] at hpid; cases hpid
      | some p => simp [ProcessManager.check_process, hout, h]
    · intro hpid
      simp [ProcessManager.check_process, hout, hpid]

/-- Witness for C3: a crashed exit of the tracked child of the running
instance is reclassified to Crashed with the captured exit detail. -/
theorem c3_check_process_classification_witness :
    (ProcessManager.check_process { pm0 with children := [1] }
        (.exited false "signal: 9") true 4 instRunning).1 = false ∧
    (ProcessManager.check_process { pm0 with children := [1] }
        (.exited false "signal: 9") true 4 instRunning).2.status = .Crashed ∧
    (ProcessManager.check_process { pm0 with children := [1] }
        (.exited false "signal: 9") true 4 instRunning).2.last_error =
      some ("Process exited with status: " ++ "signal: 9") :=
  ((c3_check_process_classification { pm0 with children := [1] }
      (.exited false "signal: 9") true 4 instRunning).1 (by decide)).2.1
    "signal: 9" rfl

/-- Counterexample to claim C2: ProcessManager::spawn performs no check of
the instance's status.  On a concrete instance whose status is Running (an
active status) and a world where the executable exists and the OS spawn
succeeds, spawn returns Ok instead of failing. -/
theorem c2_counterexample_spawn_active_succeeds :
    instRunning.status.is_active = true ∧
    pm0.spawn wOK 3 instRunning =
      .ok ⟨instRunning.mark_starting 3 7,
           { pm0 with children := insertId instRunning.id pm0.children },
           buildCommand (pm0.instance_data_path instRunning.id instRunning.config)
             instRunning.config, 7⟩ :=
  ⟨rfl, rfl⟩

/-- Claim C2 (amended): ProcessManager::spawn requires only that the
configured executable path exists — when it does not, it fails with the
NotFound-class "Executable not found" bail; when the executable exists, the
data directory is created and the OS spawn succeeds, spawn succeeds for any
instance regardless of its status, marking it Starting with the returned pid.
The status-not-active precondition is enforced one level up: AppState's
start_instance rejects an active instance with the InvalidState-class error
before ever reaching spawn. -/
theorem c2_spawn_preconditions :
    (∀ (pm : ProcessManager) (w : SpawnWorld) (now : Nat) (inst : Instance),
        w.exe_exists = false →
        pm.spawn w now inst = .error (.NotFound inst.config.executable_path)) ∧
    (∀ (pm : ProcessManager) (w : SpawnWorld) (now : Nat) (inst : Instance) (p : Pid),
        w.exe_exists = true → w.create_dir_ok = true → w.os_spawn = some p →
        ∃ r, pm.spawn w now inst = .ok r ∧ r.inst = inst.mark_starting now p) ∧
    (∀ (s : AppState) (w : SpawnWorld) (now : Nat) (id : InstanceId) (inst : Instance),
        lookupKey id s.instances = some inst → inst.status.is_active = true →
        s.start_instance w now id =
          (.error (.InvalidState "Instance is already running"), s, [])) := by
  refine ⟨?_, ?_, ?_⟩
  · intro pm w now inst h
    simp [ProcessManager.spawn, h]
  · intro pm w now inst p he hc ho
    refine ⟨⟨inst.mark_starting now p,
             { pm with children := insertId inst.id pm.children },
             buildCommand (pm.instance_data_path inst.id inst.config) inst.config, p⟩,
            ?_, rfl⟩
    simp [ProcessManager.spawn, he, hc, ho]
  · intro s w now id inst hlook hact
    unfold AppState.start_instance
    rw [hlook]
    simp [hact]

/-- Witness for C2 (amended): a missing executable is rejected with NotFound
at a concrete world and instance. -/
theorem c2_spawn_preconditions_witness :
    pm0.spawn { wOK with exe_exists := false } 3 inst0 =
      .error (.NotFound inst0.config.executable_path) :=
  c2_spawn_preconditions.1 pm0 { wOK with exe_exists := false } 3 inst0 rfl

/-! Environment-override bookkeeping for the launch command. -/

theorem envValue_setEnv_self (c : LaunchCommand) (k v : String) :
    (c.setEnv k v).envValue k = some v := by
  simp [LaunchCommand.setEnv, LaunchCommand.envValue]

theorem envValue_setEnv_ne (c : LaunchCommand) (k v k' : String) (h : k ≠ k') :
    (c.setEnv k v).envValue k' = c.envValue k' := by
  simp [LaunchCommand.setEnv, LaunchCommand.envValue, List.find?_cons, h]

theorem envValue_foldl_ne (l : List (String × String)) (key : String)
    (h : ∀ kv ∈ l, kv.1 ≠ key) :
    ∀ c : LaunchCommand,
      (l.foldl (fun c kv => c.setEnv kv.1 kv.2) c).envValue key = c.envValue key := by
  induction l with
  | nil => intro c; rfl
  | cons kv rest ih =>
      intro c
      rw [List.foldl_cons, ih (fun x hx => h x (List.mem_cons_of_mem kv hx)),
        envValue_setEnv_ne c kv.1 kv.2 key (h kv (List.mem_cons_self kv rest))]

theorem setup_isolation_env_values (cmd : LaunchCommand) (dd : Path) :
    (setup_isolation_env cmd dd).envValue "HOME" = some dd ∧
    (setup_isolation_env cmd dd).envValue "XDG_DATA_HOME" = some (pathJoin dd "Library") ∧
    (setup_isolation_env cmd dd).envValue "XDG_CONFIG_HOME" =
      some (pathJoin (pathJoin dd "Library") "Preferences") ∧
    (setup_isolation_env cmd dd).envValue "XDG_CACHE_HOME" =
      some (pathJoin (pathJoin dd "Library") "Caches") := by
  unfold setup_isolation_env
  refine ⟨?_, ?_, ?_, ?_⟩
  · rw [envValue_setEnv_ne _ _ _ _ (by decide), envValue_setEnv_ne _ _ _ _ (by decide),
      envValue_setEnv_ne _ _ _ _ (by decide), envValue_setEnv_self]
  · rw [envValue_setEnv_ne _ _ _ _ (by decide), envValue_setEnv_ne _ _ _ _ (by decide),
      envValue_setEnv_self]
  · rw [envValue_setEnv_ne _ _ _ _ (by decide), envValue_setEnv_self]
  · rw [envValue_setEnv_self]

/-- Config that requests environment isolation but leaves the
single-instance bypass off. -/
def cfgIsoOnly : InstanceConfig :=
  { InstanceConfig.defaultConfig with
      executable_path := "/apps/game",
      working_directory := some "/apps",
      use_environment_isolation := true,
      bypass_single_instance := false }

/-- Instance launched from that config. -/
def instIsoOnly : Instance := Instance.new 3 0 cfgIsoOnly

/-- Counterexample to claim C4: the source guards the isolation rewrite with
bypass_single_instance AND use_environment_isolation.  A spawn whose config
requests environment isolation but has the bypass flag off succeeds with none
of the home/app-data variables overridden in the launch command — they are
inherited from the launcher, not rewritten. -/
theorem c4_counterexample_isolation_needs_bypass :
    cfgIsoOnly.use_environment_isolation = true ∧
    pm0.spawn wOK 0 instIsoOnly =
      .ok ⟨instIsoOnly.mark_starting 0 7,
           { pm0 with children := insertId instIsoOnly.id pm0.children },
           buildCommand (pm0.instance_data_path instIsoOnly.id instIsoOnly.config)
             instIsoOnly.config, 7⟩ ∧
    (buildCommand (pm0.instance_data_path instIsoOnly.id instIsoOnly.config)
        instIsoOnly.config).envValue "HOME" = none ∧
    (buildCommand (pm0.instance_data_path instIsoOnly.id instIsoOnly.config)
        instIsoOnly.config).envValue "XDG_DATA_HOME" = none ∧
    (buildCommand (pm0.instance_data_path instIsoOnly.id instIsoOnly.config)
        instIsoOnly.config).envValue "XDG_CONFIG_HOME" = none ∧
    (buildCommand (pm0.instance_data_path instIsoOnly.id instIsoOnly.config)
        instIsoOnly.config).envValue "XDG_CACHE_HOME" = none := by
  refine ⟨rfl, rfl, ?_, ?_, ?_, ?_⟩ <;> decide

/-- Claim C4 (amended): the isolation rewrite requires BOTH flags — for every
spawn whose config has use_environment_isolation = true AND
bypass_single_instance = true (and whose custom environment entries do not
themselves override the isolation variables, which are applied first), the
launch command overrides the home/app-data-equivalent variables (HOME and the
XDG directories on the modelled OS) to point inside the instance-private data
directory.  With the bypass flag off no rewrite happens, per the
counterexample. -/
theorem c4_isolation_env_rewrite (pm : ProcessManager) (w : SpawnWorld) (now : Nat)
    (inst : Instance) (r : SpawnOk)
    (hb : inst.config.bypass_single_instance = true)
    (hu : inst.config.use_environment_isolation = true)
    (henv : ∀ kv ∈ inst.config.environment,
      kv.1 ≠ "HOME" ∧ kv.1 ≠ "XDG_DATA_HOME" ∧ kv.1 ≠ "XDG_CONFIG_HOME" ∧
        kv.1 ≠ "XDG_CACHE_HOME")
    (hok : pm.spawn w now inst = .ok r) :
    r.cmd.envValue "HOME" = some (pm.instance_data_path inst.id inst.config) ∧
    r.cmd.envValue "XDG_DATA_HOME" =
      some (pathJoin (pm.instance_data_path inst.id inst.config) "Library") ∧
    r.cmd.envValue "XDG_CONFIG_HOME" =
      some (pathJoin (pathJoin (pm.instance_data_path inst.id inst.config) "Library")
        "Preferences") ∧
    r.cmd.envValue "XDG_CACHE_HOME" =
      some (pathJoin (pathJoin (pm.instance_data_path inst.id inst.config) "Library")
        "Caches") := by
  have hcmd : r.cmd = buildCommand (pm.instance_data_path inst.id inst.config) inst.config := by
    unfold ProcessManager.spawn at hok
    cases he : w.exe_exists with
    | false => rw [he] at hok; cases hok
    | true =>
        rw [he] at hok
        cases hc : w.create_dir_ok with
        | false => rw [hc] at hok; cases hok
        | true =>
            rw [hc] at hok
            simp only [Bool.not_true, Bool.false_eq_true, if_false] at hok
            cases ho : w.os_spawn with
            | none => rw [ho] at hok; cases hok
            | some p =>
                rw [ho] at hok
                cases hok
                rfl
  have hiso : (inst.config.bypass_single_instance && inst.config.use_environment_isolation) = true := by
    rw [hb, hu]; rfl
  rw [hcmd]
  unfold buildCommand
  simp only [hiso, if_true]
  have hfold := fun key hkey =>
    envValue_foldl_ne inst.config.environment key hkey
  have hvals := setup_isolation_env_values
    (match inst.config.working_directory with
      | some wd =>
          { program := inst.config.executable_path, cwd := some wd, args := [], env := [] }
      | none =>
          match parentDir inst.config.executable_path with
          | some parent =>
              { program := inst.config.executable_path, cwd := some parent, args := [],
                env := [] }
          | none => { program := inst.config.executable_path, cwd := none, args := [], env := [] })
    (pm.instance_data_path inst.id inst.config)
  constructor
  · rw [hfold "HOME" (fun kv hkv => (henv kv hkv).1)]
    exact hvals.1
  constructor
  · rw [hfold "XDG_DATA_HOME" (fun kv hkv => (henv kv hkv).2.1)]
    exact hvals.2.1
  constructor
  · rw [hfold "XDG_CONFIG_HOME" (fun kv hkv => (henv kv hkv).2.2.1)]
    exact hvals.2.2.1
  · rw [hfold "XDG_CACHE_HOME" (fun kv hkv => (henv kv hkv).2.2.2)]
    exact hvals.2.2.2

/-- Freshly constructed monitor (construction instant 0, interval 10ms). -/
def mon0 : ResourceMonitor := ResourceMonitor.new 0 10

/-- Counterexample to claim C5: two refresh() calls within the configured
interval of each other need not perform exactly one OS poll.  On a monitor
constructed at instant 0 with a 10ms interval, refreshes at instants 3 and 5
(2ms apart, within the interval) are BOTH throttled no-ops — zero polls, not
one — because last_update is initialised at construction and neither call
comes a full interval after it. -/
theorem c5_counterexample_zero_polls :
    5 - 3 < mon0.update_interval ∧
    (sharedRefresh mon0 3 []).2 = false ∧
    (sharedRefresh (sharedRefresh mon0 3 []).1 5 []).2 = false := by
  refine ⟨?_, ?_, ?_⟩ <;> decide

/-- Claim C5 (amended): two refresh() calls made within the configured update
interval of each other perform AT MOST one underlying OS poll — they never
both poll, and whenever the first call does poll (the interval having elapsed
since the prior refresh or construction) the second is a no-op, giving
exactly one poll; both can also be no-ops when the first is itself throttled.
In get_system_resources the first-ever network sample for an interface
reports rx_rate = 0 and tx_rate = 0, and a subsequent sample's rates equal
the counter delta divided by the elapsed time since the previous recorded
sample. -/
theorem c5_refresh_throttle_and_rates :
    (∀ (m : ResourceMonitor) (t1 t2 : Nat) (net1 net2 : List (String × Nat × Nat)),
        t2 - t1 < m.update_interval →
        (sharedRefresh m t1 net1).2 = true →
        (sharedRefresh (sharedRefresh m t1 net1).1 t2 net2).2 = false) ∧
    (∀ (m : ResourceMonitor) (t1 : Nat) (net1 : List (String × Nat × Nat)),
        m.update_interval ≤ t1 - m.last_update →
        (sharedRefresh m t1 net1).2 = true) ∧
    (∀ (m : ResourceMonitor) (now : Nat) (iface : NetworkInterface),
        iface ∈ m.network_snapshot now →
        lastSample m iface.name = none →
        iface.rx_rate = 0 ∧ iface.tx_rate = 0) ∧
    (∀ (m : ResourceMonitor) (now : Nat) (iface : NetworkInterface) (s : NetSample),
        iface ∈ m.network_snapshot now →
        lastSample m iface.name = some s →
        0 < now - s.time →
        iface.rx_rate = (iface.rx_bytes - s.rx) / (now - s.time) ∧
        iface.tx_rate = (iface.tx_bytes - s.tx) / (now - s.time)) := by
  refine ⟨?_, ?_, ?_, ?_⟩
  · intro m t1 t2 net1 net2 hlt hfirst
    unfold sharedRefresh ResourceMonitor.refresh at hfirst ⊢
    by_cases h1 : t1 - m.last_update < m.update_interval
    · simp [h1] at hfirst
    · simp only [h1, if_neg, if_false]
      simp [ResourceMonitor.update_network_rates, hlt]
  · intro m t1 net1 h
    unfold sharedRefresh ResourceMonitor.refresh
    have h1 : ¬ (t1 - m.last_update < m.update_interval) := not_lt.mpr h
    simp [h1]
  · intro m now iface hmem hnone
    obtain ⟨nd, hnd, hEq⟩ := List.mem_map.1 hmem
    subst hEq
    simp only at hnone
    simp [networkRates, hnone]
  · intro m now iface s hmem hsome hpos
    obtain ⟨nd, hnd, hEq⟩ := List.mem_map.1 hmem
    subst hEq
    simp only at hsome
    simp [networkRates, hsome, hpos]

/-- Witness for C5 (amended): on the concrete monitor a refresh at instant 12
(one full interval past construction) polls, and a second refresh at 14 is a
no-op; a first-ever sample for interface "en0" reports zero rates. -/
theorem c5_refresh_throttle_and_rates_witness :
    (sharedRefresh (sharedRefresh mon0 12 [("en0", 100, 50)]).1 14
        [("en0", 200, 80)]).2 = false ∧
    ((ResourceMonitor.new 0 10).refresh 12 [("en0", 100, 50)]).1.network_snapshot 12 =
      [{ name := "en0", rx_bytes := 100, tx_bytes := 50, rx_rate := 0, tx_rate := 0 }] := by
  constructor
  · exact c5_refresh_throttle_and_rates.1 mon0 12 14 [("en0", 100, 50)]
      [("en0", 200, 80)] (by decide)
      (c5_refresh_throttle_and_rates.2.1 mon0 12 [("en0", 100, 50)] (by decide))
  · decide

/-- Config with both the isolation flag and the bypass flag set. -/
def cfgIsoBoth : InstanceConfig :=
  { InstanceConfig.defaultConfig with
      executable_path := "/apps/game",
      working_directory := some "/apps",
      use_environment_isolation := true,
      bypass_single_instance := true }

/-- Instance launched from that config. -/
def instIsoBoth : Instance := Instance.new 4 0 cfgIsoBoth

/-- Witness for C4 (amended): with both flags set, the spawned command's HOME
points at the instance-private data directory. -/
theorem c4_isolation_env_rewrite_witness :
    (buildCommand (pm0.instance_data_path instIsoBoth.id instIsoBoth.config)
        instIsoBoth.config).envValue "HOME" =
      some (pm0.instance_data_path instIsoBoth.id instIsoBoth.config) :=
  (c4_isolation_env_rewrite pm0 wOK 0 instIsoBoth
      ⟨instIsoBoth.mark_starting 0 7,
       { pm0 with children := insertId instIsoBoth.id pm0.children },
       buildCommand (pm0.instance_data_path instIsoBoth.id instIsoBoth.config)
         instIsoBoth.config, 7⟩
      rfl rfl (by decide) rfl).1

/-! Instance-level invariant of claim C1 and the supporting lemmas. -/

/-- Invariant of claim C1: an active status implies a known pid, and a
non-active status implies default (all-zero) resource usage. -/
def InstInv (i : Instance) : Prop :=
  (i.status.is_active = true → i.pid.isSome = true) ∧
  (i.status.is_active = false → i.resource_usage = ResourceUsage.zero)

instance (i : Instance) : Decidable (InstInv i) := by
  unfold InstInv
  infer_instance

theorem instInv_new (id : InstanceId) (now : Nat) (config : InstanceConfig) :
    InstInv (Instance.new id now config) := by
  refine ⟨fun h => ?_, fun _ => rfl⟩
  cases h

theorem instInv_mark_starting (i : Instance) (now : Nat) (p : Pid) :
    InstInv (i.mark_starting now p) := by
  refine ⟨fun _ => rfl, fun h => ?_⟩
  cases h

theorem instInv_mark_stopped (i : Instance) (now : Nat) :
    InstInv (i.mark_stopped now) := by
  refine ⟨fun h => ?_, fun _ => rfl⟩
  cases h

theorem instInv_mark_crashed (i : Instance) (now : Nat) (e : Option String) :
    InstInv (i.mark_crashed now e) := by
  refine ⟨fun h => ?_, fun _ => rfl⟩
  cases h

/-- Inversion of a successful ProcessManager::spawn. -/
theorem spawn_ok_shape (pm : ProcessManager) (w : SpawnWorld) (now : Nat)
    (inst : Instance) (r : SpawnOk) (hok : pm.spawn w now inst = .ok r) :
    ∃ p, w.os_spawn = some p ∧ r.pid = p ∧
      r.inst = inst.mark_starting now p ∧
      r.pm = { pm with children := insertId inst.id pm.children } ∧
      r.cmd = buildCommand (pm.instance_data_path inst.id inst.config) inst.config := by
  unfold ProcessManager.spawn at hok
  cases he : w.exe_exists with
  | false => rw [he] at hok; cases hok
  | true =>
      rw [he] at hok
      cases hc : w.create_dir_ok with
      | false => rw [hc] at hok; cases hok
      | true =>
          rw [hc] at hok
          simp only [Bool.not_true, Bool.false_eq_true, if_false] at hok
          cases ho : w.os_spawn with
          | none => rw [ho] at hok; cases hok
          | some p =>
              rw [ho] at hok
              cases hok
              exact ⟨p, rfl, rfl, rfl, rfl, rfl⟩

/-- Inversion of a successful ProcessManager::stop. -/
theorem stop_ok_shape (pm : ProcessManager) (w : StopWorld) (now : Nat)
    (inst : Instance) (r : Instance × ProcessManager)
    (hok : pm.stop w now inst = .ok r) :
    r.1 = inst.mark_stopped now ∧
    r.2 = { pm with children := removeId inst.id pm.children } := by
  unfold ProcessManager.stop at hok
  cases hpid : inst.pid with
  | none => rw [hpid] at hok; cases hok; exact ⟨rfl, rfl⟩
  | some p =>
      rw [hpid] at hok
      by_cases ht : (w.terminate_ok || w.kill_ok) = true
      · rw [if_pos ht] at hok; cases hok; exact ⟨rfl, rfl⟩
      · rw [if_neg ht] at hok; cases hok

/-- Inversion of a successful ProcessManager::kill. -/
theorem kill_ok_shape (pm : ProcessManager) (b : Bool) (now : Nat)
    (inst : Instance) (r : Instance × ProcessManager)
    (hok : pm.kill b now inst = .ok r) :
    r.1 = inst.mark_stopped now ∧
    r.2 = { pm with children := removeId inst.id pm.children } := by
  unfold ProcessManager.kill at hok
  cases hpid : inst.pid with
  | none => rw [hpid] at hok; cases hok; exact ⟨rfl, rfl⟩
  | some p =>
      rw [hpid] at hok
      cases b with
      | false => rw [if_neg (by decide)] at hok; cases hok
      | true => rw [if_pos rfl] at hok; cases hok; exact ⟨rfl, rfl⟩

theorem check_process_preserves_inv (pm : ProcessManager) (tw : TryWaitResult)
    (pr : Bool) (now : Nat) (i : Instance) (h : InstInv i) :
    InstInv (pm.check_process tw pr now i).2 := by
  unfold ProcessManager.check_process
  by_cases hin : i.id ∈ pm.children
  · simp only [hin, if_true]
    cases tw with
    | exited success detail =>
        cases success
        · exact instInv_mark_crashed i now _
        · exact instInv_mark_stopped i now
    | still_running =>
        by_cases hst : i.status = .Starting
        · simp only [hst, if_pos rfl]
          refine ⟨fun _ => ?_, fun hf => by cases hf⟩
          exact h.1 (by rw [hst]; rfl)
        · simp only [if_neg hst]
          exact h
    | wait_error m => exact instInv_mark_crashed i now _
  · simp only [hin, if_false]
    cases hpid : i.pid with
    | none => exact h
    | some p => exact h

theorem pause_preserves_inv (pm : ProcessManager) (b : Bool) (i : Instance)
    (r : Instance × ProcessManager) (h : InstInv i)
    (hok : pm.pause b i = .ok r) : InstInv r.1 := by
  unfold ProcessManager.pause at hok
  cases hpid : i.pid with
  | none => rw [hpid] at hok; cases hok; exact h
  | some p =>
      rw [hpid] at hok
      cases b with
      | false => rw [if_neg (by decide)] at hok; cases hok
      | true =>
          rw [if_pos rfl] at hok
          cases hok
          exact ⟨fun _ => by simp [Instance.mark_paused, hpid], fun hf => by cases hf⟩

theorem resume_preserves_inv (pm : ProcessManager) (b : Bool) (i : Instance)
    (r : Instance × ProcessManager) (h : InstInv i)
    (hok : pm.resume b i = .ok r) : InstInv r.1 := by
  unfold ProcessManager.resume at hok
  cases hpid : i.pid with
  | none => rw [hpid] at hok; cases hok; exact h
  | some p =>
      rw [hpid] at hok
      cases b with
      | false => rw [if_neg (by decide)] at hok; cases hok
      | true =>
          rw [if_pos rfl] at hok
          cases hok
          exact ⟨fun _ => by simp [Instance.mark_running, hpid], fun hf => by cases hf⟩

/-- Liveness-probe hypothesis under which update_resources preserves the
usage-reset half of the invariant: the probe never reports the retained pid
of a non-active instance as still alive. -/
def ProbeNotStale (pm : ProcessManager) (p : ProbeWorld) (i : Instance) : Prop :=
  i.status.is_active = false → i.pid.isSome = true →
    (i.id ∈ pm.children → p.tw ≠ .still_running) ∧
    (i.id ∉ pm.children → p.pid_running = false)

theorem updateInstanceResources_preserves_inv (pm : ProcessManager)
    (p : ProbeWorld) (now : Nat) (i : Instance) (h : InstInv i)
    (hstale : ProbeNotStale pm p i) :
    InstInv (updateInstanceResources pm p now i) := by
  unfold updateInstanceResources
  cases hpid : i.pid with
  | none => exact h
  | some q =>
      have hcheck := check_process_preserves_inv pm p.tw p.pid_running now i h
      by_cases halive : (pm.check_process p.tw p.pid_running now i).1 = true
      · -- still-alive verdict: the monitor sample may overwrite the usage
        have hact : (pm.check_process p.tw p.pid_running now i).2.status.is_active = true ∧
            (pm.check_process p.tw p.pid_running now i).2.pid = some q := by
          unfold ProcessManager.check_process at halive ⊢
          by_cases hin : i.id ∈ pm.children
          · simp only [hin, if_true] at halive ⊢
            revert halive
            cases tw : p.tw with
            | exited success detail => intro halive; cases success <;> cases halive
            | wait_error m => intro halive; cases halive
            | still_running =>
                intro halive
                by_cases hst : i.status = .Starting
                · simp only [hst, if_pos rfl]
                  exact ⟨rfl, by simp [Instance.mark_running, hpid]⟩
                · simp only [if_neg hst] at halive ⊢
                  by_cases hia : i.status.is_active = true
                  · exact ⟨hia, hpid⟩
                  · have := (hstale (by simpa using hia) (by rw [hpid]; rfl)).1 hin
                    exact absurd tw this
          · simp only [hin, if_false] at halive ⊢
            rw [hpid] at halive ⊢
            by_cases hia : i.status.is_active = true
            · exact ⟨hia, hpid⟩
            · have := (hstale (by simpa using hia) (by rw [hpid]; rfl)).2 hin
              rw [this] at halive
              cases halive
        rw [if_pos halive]
        cases p.usage with
        | none => exact hcheck
        | some u =>
            refine ⟨fun _ => ?_, fun hf => ?_⟩
            · simp [Instance.update_resource_usage, hact.2]
            · simp only [Instance.update_resource_usage] at hf
              rw [hact.1] at hf
              cases hf
      · rw [if_neg halive]
        exact hcheck

theorem mem_upsert {α : Type} (k : Nat) (v : α) (l : List (Nat × α)) (q : Nat × α)
    (h : q ∈ upsert k v l) : q = (k, v) ∨ q ∈ l := by
  induction l with
  | nil =>
      unfold upsert at h
      rcases List.mem_cons.1 h with h1 | h2
      · exact Or.inl h1
      · cases h2
  | cons p rest ih =>
      unfold upsert at h
      by_cases hp : p.1 = k
      · rw [if_pos hp] at h
        rcases List.mem_cons.1 h with h1 | h2
        · exact Or.inl h1
        · exact Or.inr (List.mem_cons_of_mem p h2)
      · rw [if_neg hp] at h
        rcases List.mem_cons.1 h with h1 | h2
        · exact Or.inr (h1 ▸ List.mem_cons_self p rest)
        · rcases ih h2 with ha | hb
          · exact Or.inl ha
          · exact Or.inr (List.mem_cons_of_mem p hb)

/-- Claim C1 (amended): across every modelled operation (create, spawn, stop,
kill, pause, resume, check_process, update_resources) the invariant "active
status implies a known pid" is established and preserved, and the invariant
"non-active status implies default resource_usage" is preserved by every
operation EXCEPT that update_resources preserves it only under the extra
ProbeNotStale hypothesis — that the liveness probe never reports the retained
pid of a non-active instance as still running.  Without that hypothesis the
second half fails (see the counterexample): a stopped instance retaining a
pid the OS still reports alive gets its resource_usage overwritten. -/
theorem c1_status_pid_usage_invariant :
    (∀ (s : AppState) (w : SpawnWorld) (now : Nat) (fresh : InstanceId)
        (config : InstanceConfig) (start : Bool),
        (∀ q ∈ s.instances, InstInv q.2) →
        ∀ q ∈ (s.create_instance w now fresh config start).2.1.instances, InstInv q.2) ∧
    (∀ (pm : ProcessManager) (w : SpawnWorld) (now : Nat) (inst : Instance) (r : SpawnOk),
        pm.spawn w now inst = .ok r → InstInv r.inst) ∧
    (∀ (pm : ProcessManager) (w : StopWorld) (now : Nat) (inst : Instance)
        (r : Instance × ProcessManager),
        pm.stop w now inst = .ok r → InstInv r.1) ∧
    (∀ (pm : ProcessManager) (b : Bool) (now : Nat) (inst : Instance)
        (r : Instance × ProcessManager),
        pm.kill b now inst = .ok r → InstInv r.1) ∧
    (∀ (pm : ProcessManager) (b : Bool) (inst : Instance)
        (r : Instance × ProcessManager),
        InstInv inst → pm.pause b inst = .ok r → InstInv r.1) ∧
    (∀ (pm : ProcessManager) (b : Bool) (inst : Instance)
        (r : Instance × ProcessManager),
        InstInv inst → pm.resume b inst = .ok r → InstInv r.1) ∧
    (∀ (pm : ProcessManager) (tw : TryWaitResult) (pr : Bool) (now : Nat)
        (inst : Instance),
        InstInv inst → InstInv (pm.check_process tw pr now inst).2) ∧
    (∀ (s : AppState) (probe : InstanceId → ProbeWorld) (now : Nat),
        (∀ q ∈ s.instances, InstInv q.2) →
        (∀ q ∈ s.instances, ProbeNotStale s.pm (probe q.1) q.2) →
        ∀ q ∈ (s.update_resources probe now).instances, InstInv q.2) := by
  refine ⟨?_, ?_, ?_, ?_, ?_, ?_, ?_, ?_⟩
  · intro s w now fresh config start hpre q hq
    unfold AppState.create_instance at hq
    cases start with
    | false =>
        rw [if_neg (by decide)] at hq
        rcases mem_upsert _ _ _ _ hq with h1 | h2
        · rw [h1]; exact instInv_new fresh now config
        · exact hpre q h2
    | true =>
        rw [if_pos rfl] at hq
        revert hq
        cases hsp : s.pm.spawn w now (Instance.new fresh now config) with
        | error e => intro hq; exact hpre q hq
        | ok r =>
            intro hq
            rcases mem_upsert _ _ _ _ hq with h1 | h2
            · obtain ⟨p, _, _, hinst, _, _⟩ := spawn_ok_shape _ _ _ _ _ hsp
              rw [h1]
              simpa [hinst] using instInv_mark_starting (Instance.new fresh now config) now p
            · exact hpre q h2
  · intro pm w now inst r hok
    obtain ⟨p, _, _, hinst, _, _⟩ := spawn_ok_shape _ _ _ _ _ hok
    rw [hinst]
    exact instInv_mark_starting inst now p
  · intro pm w now inst r hok
    rw [(stop_ok_shape _ _ _ _ _ hok).1]
    exact instInv_mark_stopped inst now
  · intro pm b now inst r hok
    rw [(kill_ok_shape _ _ _ _ _ hok).1]
    exact instInv_mark_stopped inst now
  · intro pm b inst r h hok
    exact pause_preserves_inv pm b inst r h hok
  · intro pm b inst r h hok
    exact resume_preserves_inv pm b inst r h hok
  · intro pm tw pr now inst h
    exact check_process_preserves_inv pm tw pr now inst h
  · intro s probe now hpre hstale q hq
    unfold AppState.update_resources at hq
    simp only [List.mem_map] at hq
    obtain ⟨q0, hq0, hEq⟩ := hq
    rw [← hEq]
    exact updateInstanceResources_preserves_inv s.pm (probe q0.1) now q0.2
      (hpre q0 hq0) (hstale q0 hq0)

/-- Empty application state over the fixture process manager. -/
def s0App : AppState :=
  { instances := [], profiles := [], pm := pm0, db := [], recent_apps := [] }

/-- Non-default usage sample delivered by the monitor. -/
def usageX : ResourceUsage := { ResourceUsage.zero with memory_bytes := 4096 }

/-- State after create_instance(cfgX, start = true) under id 1 (Starting, pid 7). -/
def c1sA : AppState := (s0App.create_instance wOK 0 1 cfgX true).2.1

/-- State after stop_instance(1): Stopped, with the pid retained for display. -/
def c1sB : AppState := (c1sA.stop_instance ⟨true, true⟩ 1 1).2.1

/-- Probe world of the next periodic tick: the OS still reports the retained
pid as running (the process has not yet fully vanished, or the pid was
reused) and the monitor has a sample for it. -/
def c1probe : InstanceId → ProbeWorld :=
  fun _ => ⟨.still_running, true, some usageX⟩

/-- State after update_resources under that probe. -/
def c1sC : AppState := c1sB.update_resources c1probe 2

/-- Counterexample to claim C1 as stated: after the reachable operation
sequence create(start) → stop → update_resources, with the liveness probe
still answering true for the stopped instance's retained pid, the instance is
non-active yet carries non-default resource_usage — update_resources
overwrote the usage that mark_stopped had reset. -/
theorem c1_counterexample_stale_pid_usage :
    lookupKey 1 c1sC.instances =
      some { id := 1, config := cfgX, status := .Stopped, pid := some 7,
             created_at := 0, started_at := some 0, stopped_at := some 1,
             resource_usage := usageX, restart_count := 0, last_error := none } ∧
    InstanceStatus.Stopped.is_active = false ∧
    usageX ≠ ResourceUsage.zero := by
  refine ⟨?_, rfl, ?_⟩ <;> decide

/-- Witness for C1 (amended), applying the check_process conjunct at the
concrete running instance. -/
theorem c1_status_pid_usage_invariant_witness :
    InstInv ((ProcessManager.check_process pm0 .still_running false 0 instRunning).2) :=
  c1_status_pid_usage_invariant.2.2.2.2.2.2.1 pm0 .still_running false 0 instRunning
    (by decide)

theorem lookupKey_upsert_self {α : Type} (k : Nat) (v : α) (l : List (Nat × α)) :
    lookupKey k (upsert k v l) = some v := by
  induction l with
  | nil => simp [upsert, lookupKey]
  | cons p rest ih =>
      unfold upsert
      by_cases hp : p.1 = k
      · rw [if_pos hp]
        simp [lookupKey]
      · rw [if_neg hp]
        unfold lookupKey
        rw [if_neg hp]
        exact ih

theorem lookupKey_upsert_ne {α : Type} (k k' : Nat) (v : α) (l : List (Nat × α))
    (h : k' ≠ k) : lookupKey k' (upsert k v l) = lookupKey k' l := by
  induction l with
  | nil =>
      unfold upsert lookupKey
      rw [if_neg (fun hkk => h hkk.symm)]
      rfl
  | cons p rest ih =>
      unfold upsert
      by_cases hp : p.1 = k
      · rw [if_pos hp]
        unfold lookupKey
        rw [if_neg (fun hkk => h hkk.symm), if_neg (fun hq => h (hp.symm.trans hq).symm)]
      · rw [if_neg hp]
        unfold lookupKey
        by_cases hq : p.1 = k'
        · rw [if_pos hq, if_pos hq]
        · rw [if_neg hq, if_neg hq]
          exact ih

/-- Successful spawn fully computed from a successful world. -/
theorem spawn_ok_of_world (pm : ProcessManager) (w : SpawnWorld) (now : Nat)
    (inst : Instance) (p : Pid) (he : w.exe_exists = true)
    (hc : w.create_dir_ok = true) (ho : w.os_spawn = some p) :
    pm.spawn w now inst =
      .ok ⟨inst.mark_starting now p,
           { pm with children := insertId inst.id pm.children },
           buildCommand (pm.instance_data_path inst.id inst.config) inst.config, p⟩ := by
  unfold ProcessManager.spawn
  rw [he, hc, ho]
  rfl

/-- Expected effect trace of one staggered launch: one spawn + save block per
config, a sleep of the configured delay in front of every block except the
one at index 0. -/
def staggerTrace (w : InstanceId → SpawnWorld) (delay : Nat) :
    List InstanceConfig → Nat → Nat → List Event
  | [], _, _ => []
  | _ :: rest, i, fresh =>
      (if 0 < i then [Event.sleep_ms delay] else []) ++
      [Event.os_spawn_proc fresh ((w fresh).os_spawn.getD 0), Event.db_save fresh] ++
      staggerTrace w delay rest (i + 1) (fresh + 1)

theorem launchLoop_ok_all (w : InstanceId → SpawnWorld) (now delay : Nat) :
    ∀ (configs : List InstanceConfig) (i fresh : Nat) (s : AppState),
    (∀ id, fresh ≤ id → id < fresh + configs.length →
        (w id).exe_exists = true ∧ (w id).create_dir_ok = true ∧
          (w id).os_spawn.isSome = true) →
    ∃ s',
      launchLoop w now delay true configs i fresh s =
        (.ok (List.range' fresh configs.length), s',
          staggerTrace w delay configs i fresh) ∧
      (∀ k (hk : k < configs.length),
          (lookupKey (fresh + k) s'.instances).map Instance.config =
            some (configs.get ⟨k, hk⟩)) ∧
      (∀ id, id < fresh → lookupKey id s'.instances = lookupKey id s.instances) := by
  intro configs
  induction configs with
  | nil =>
      intro i fresh s hw
      refine ⟨s, rfl, ?_, fun id _ => rfl⟩
      intro k hk
      cases hk
  | cons c rest ih =>
      intro i fresh s hw
      obtain ⟨p, hp⟩ := Option.isSome_iff_exists.1
        (hw fresh (Nat.le_refl fresh) (by simp only [List.length_cons]; omega)).2.2
      have hcre : s.create_instance (w fresh) now fresh c true =
          (.ok fresh,
           { s with recent_apps := addRecentApp c.executable_path s.recent_apps,
                    instances := upsert fresh ((Instance.new fresh now c).mark_starting now p)
                      s.instances,
                    pm := { children := insertId (Instance.new fresh now c).id s.pm.children,
                            instance_data_dir := s.pm.instance_data_dir },
                    db := upsert fresh ((Instance.new fresh now c).mark_starting now p) s.db },
           [.os_spawn_proc fresh p, .db_save fresh]) := by
        unfold AppState.create_instance
        rw [if_pos rfl,
          spawn_ok_of_world s.pm (w fresh) now (Instance.new fresh now c) p
            (hw fresh (Nat.le_refl fresh) (by simp only [List.length_cons]; omega)).1
            (hw fresh (Nat.le_refl fresh) (by simp only [List.length_cons]; omega)).2.1 hp]
      obtain ⟨s', hloop, hconf, hframe⟩ :=
        ih (i + 1) (fresh + 1)
          { s with recent_apps := addRecentApp c.executable_path s.recent_apps,
                   instances := upsert fresh ((Instance.new fresh now c).mark_starting now p)
                     s.instances,
                   pm := { children := insertId (Instance.new fresh now c).id s.pm.children,
                           instance_data_dir := s.pm.instance_data_dir },
                   db := upsert fresh ((Instance.new fresh now c).mark_starting now p) s.db }
          (fun id h1 h2 => hw id (Nat.le_of_succ_le h1)
            (by simp only [List.length_cons]; omega))
      refine ⟨s', ?_, ?_, ?_⟩
      · unfold launchLoop
        rw [hcre]
        dsimp only
        rw [hloop]
        have hrange : List.range' fresh (c :: rest).length =
            fresh :: List.range' (fresh + 1) rest.length := by
          simp only [List.length_cons]
          rfl
        rw [hrange]
        have htr : staggerTrace w delay (c :: rest) i fresh =
            (if 0 < i then [Event.sleep_ms delay] else []) ++
            [Event.os_spawn_proc fresh p, Event.db_save fresh] ++
            staggerTrace w delay rest (i + 1) (fresh + 1) := by
          simp [staggerTrace, hp]
        rw [htr]
        simp [List.append_assoc]
      · intro k hk
        cases k with
        | zero =>
            rw [Nat.add_zero, hframe fresh (Nat.lt_succ_self fresh),
              lookupKey_upsert_self]
            rfl
        | succ k0 =>
            have : fresh + (k0 + 1) = (fresh + 1) + k0 := by omega
            rw [this]
            exact hconf k0 (by simpa using hk)
      · intro id hid
        rw [hframe id (Nat.lt_succ_of_lt hid),
          lookupKey_upsert_ne fresh id _ s.instances (Nat.ne_of_lt hid)]

/-- Claim C6: launching a profile with staggered_launch = true and N configs
(under a fresh-id supply starting at `fresh`, with every spawn succeeding)
issues exactly N instance creations in the profile's list order — the effect
trace is one spawn-and-persist block per config, with a sleep of the
configured launch delay before every block except the first, hence exactly
N − 1 sleeps — and returns the N new instance ids in creation order; the k-th
new id holds the k-th config of the profile. -/
theorem c6_launch_profile_staggered (s : AppState) (w : InstanceId → SpawnWorld)
    (now fresh : Nat) (profile_id : ProfileId) (prof : Profile)
    (hprof : lookupKey profile_id s.profiles = some prof)
    (hstag : prof.staggered_launch = true)
    (hw : ∀ id, fresh ≤ id → id < fresh + prof.instances.length →
        (w id).exe_exists = true ∧ (w id).create_dir_ok = true ∧
          (w id).os_spawn.isSome = true) :
    ∃ s',
      s.launch_profile w now fresh profile_id =
        (.ok (List.range' fresh prof.instances.length), s',
         staggerTrace w prof.launch_delay_ms prof.instances 0 fresh ++
           [.db_save_profile profile_id]) ∧
      ∀ k (hk : k < prof.instances.length),
        (lookupKey (fresh + k) s'.instances).map Instance.config =
          some (prof.instances.get ⟨k, hk⟩) := by
  obtain ⟨s', hloop, hconf, _⟩ :=
    launchLoop_ok_all w now prof.launch_delay_ms prof.instances 0 fresh
      { s with profiles := upsert profile_id (prof.mark_used now) s.profiles } hw
  refine ⟨s', ?_, hconf⟩
  unfold AppState.launch_profile
  rw [hprof]
  dsimp only
  rw [hstag, hloop]

/-- Two-config staggered profile for the C6 witness. -/
def profW : Profile :=
  { id := 9, name := "pair", description := "", category := none,
    instances := [cfgX, cfgX], staggered_launch := true, launch_delay_ms := 250,
    created_at := 0, modified_at := 0, last_used_at := none, launch_count := 0,
    is_favorite := false, icon_path := none, tags := [] }

/-- State holding that profile. -/
def sProf : AppState := { s0App with profiles := [(9, profW)] }

/-- Witness for C6: launching the two-config staggered profile from id 10
yields ids [10, 11] with one sleep of 250ms between the two creations. -/
theorem c6_launch_profile_staggered_witness :
    ∃ s',
      sProf.launch_profile (fun _ => wOK) 0 10 9 =
        (.ok (List.range' 10 profW.instances.length), s',
         staggerTrace (fun _ => wOK) profW.launch_delay_ms profW.instances 0 10 ++
           [.db_save_profile 9]) ∧
      ∀ k (hk : k < profW.instances.length),
        (lookupKey (10 + k) s'.instances).map Instance.config =
          some (profW.instances.get ⟨k, hk⟩) :=
  c6_launch_profile_staggered sProf (fun _ => wOK) 0 10 9 profW rfl rfl
    (fun _ _ _ => ⟨rfl, rfl, rfl⟩)

theorem lookupKey_mem {α : Type} (k : Nat) (v : α) (l : List (Nat × α))
    (h : lookupKey k l = some v) : (k, v) ∈ l := by
  induction l with
  | nil => cases h
  | cons p rest ih =>
      unfold lookupKey at h
      by_cases hp : p.1 = k
      · rw [if_pos hp] at h
        injection h with h
        have : (k, v) = p := by rw [← hp, ← h]
        exact this ▸ List.mem_cons_self p rest
      · rw [if_neg hp] at h
        exact List.mem_cons_of_mem p (ih h)

theorem restartLoop_append (w : InstanceId → SpawnWorld) (now : Nat)
    (l1 l2 : List InstanceId) :
    ∀ s : AppState,
      restartLoop w now (l1 ++ l2) s =
        ((restartLoop w now l2 (restartLoop w now l1 s).1).1,
         (restartLoop w now l1 s).2 ++
           (restartLoop w now l2 (restartLoop w now l1 s).1).2) := by
  induction l1 with
  | nil => intro s; simp [restartLoop]
  | cons id rest ih =>
      intro s
      simp only [List.cons_append, restartLoop, List.append_eq]
      rw [ih]
      simp [List.append_assoc]

theorem restartOne_other_lookup (w : InstanceId → SpawnWorld) (now : Nat)
    (s : AppState) (id id' : InstanceId) (h : id' ≠ id) :
    lookupKey id' (restartOne w now s id).1.instances = lookupKey id' s.instances := by
  unfold restartOne
  cases hl : lookupKey id s.instances with
  | none => rfl
  | some inst =>
      dsimp only
      cases hsp : s.pm.spawn (w id) now inst.increment_restart_count with
      | ok r =>
          dsimp only
          exact lookupKey_upsert_ne id id' r.inst s.instances h
      | error e =>
          dsimp only
          exact lookupKey_upsert_ne id id' inst.increment_restart_count s.instances h

theorem restartLoop_not_mem (w : InstanceId → SpawnWorld) (now : Nat)
    (l : List InstanceId) (id' : InstanceId) (h : id' ∉ l) :
    ∀ s : AppState,
      lookupKey id' (restartLoop w now l s).1.instances = lookupKey id' s.instances := by
  induction l with
  | nil => intro s; rfl
  | cons id rest ih =>
      intro s
      unfold restartLoop
      dsimp only
      rw [ih (fun hm => h (List.mem_cons_of_mem id hm)) _,
        restartOne_other_lookup w now s id id'
          (fun he => h (he ▸ List.mem_cons_self id rest))]

theorem restartOne_hit (w : InstanceId → SpawnWorld) (now : Nat) (s : AppState)
    (id : InstanceId) (inst : Instance) (p : Pid)
    (hl : lookupKey id s.instances = some inst)
    (he : (w id).exe_exists = true) (hc : (w id).create_dir_ok = true)
    (ho : (w id).os_spawn = some p) :
    restartOne w now s id =
      ({ s with
          instances :=
            upsert id (inst.increment_restart_count.mark_starting now p) s.instances,
          pm := { children := insertId inst.increment_restart_count.id s.pm.children,
                  instance_data_dir := s.pm.instance_data_dir } },
       [Event.sleep_ms (inst.config.restart_delay_secs * 1000),
        Event.os_spawn_proc id p]) := by
  unfold restartOne
  rw [hl]
  dsimp only
  rw [spawn_ok_of_world s.pm (w id) now inst.increment_restart_count p he hc ho]

theorem restartLoop_cons (w : InstanceId → SpawnWorld) (now : Nat)
    (id : InstanceId) (l : List InstanceId) (s : AppState) :
    restartLoop w now (id :: l) s =
      ((restartLoop w now l (restartOne w now s id).1).1,
       (restartOne w now s id).2 ++
         (restartLoop w now l (restartOne w now s id).1).2) := rfl

/-- Claim C7: a Crashed instance with auto_restart = true and
restart_delay_secs = 5 is respawned by handle_auto_restarts after a sleep of
its configured 5 seconds — the effect trace contains that sleep immediately
followed by the respawn of this instance — and its restart_count is
incremented by exactly one for this crash cycle, the instance ending up
Starting with the new pid. -/
theorem c7_auto_restart_delay_and_count (s : AppState) (w : InstanceId → SpawnWorld)
    (now : Nat) (id : InstanceId) (inst : Instance) (p : Pid)
    (hnodup : (s.instances.map Prod.fst).Nodup)
    (hl : lookupKey id s.instances = some inst)
    (hcr : inst.status = .Crashed)
    (har : inst.config.auto_restart = true)
    (hdelay : inst.config.restart_delay_secs = 5)
    (he : (w id).exe_exists = true) (hc : (w id).create_dir_ok = true)
    (ho : (w id).os_spawn = some p) :
    ∃ pre post,
      (s.handle_auto_restarts w now).2 =
        pre ++ [Event.sleep_ms 5000, Event.os_spawn_proc id p] ++ post ∧
      lookupKey id (s.handle_auto_restarts w now).1.instances =
        some (inst.increment_restart_count.mark_starting now p) ∧
      inst.increment_restart_count.restart_count = inst.restart_count + 1 ∧
      (inst.increment_restart_count.mark_starting now p).status = .Starting := by
  have hmem : (id, inst) ∈ s.instances := lookupKey_mem id inst s.instances hl
  have hshould : inst.should_auto_restart = true := by
    simp [Instance.should_auto_restart, har, hcr]
  have hidmem : id ∈ (s.instances.filter (fun q => q.2.should_auto_restart)).map Prod.fst :=
    List.mem_map.2 ⟨(id, inst), List.mem_filter.2 ⟨hmem, hshould⟩, rfl⟩
  have hsub : List.Sublist
      ((s.instances.filter (fun q => q.2.should_auto_restart)).map Prod.fst)
      (s.instances.map Prod.fst) :=
    (List.filter_sublist s.instances).map Prod.fst
  have hcnodup : ((s.instances.filter (fun q => q.2.should_auto_restart)).map Prod.fst).Nodup :=
    List.Nodup.sublist hsub hnodup
  obtain ⟨l1, l2, hsplit⟩ := List.append_of_mem hidmem
  rw [hsplit] at hcnodup
  have hd := List.nodup_append.1 hcnodup
  have hnotl1 : id ∉ l1 := fun hmem1 => hd.2.2 hmem1 (List.mem_cons_self id l2)
  have hnotl2 : id ∉ l2 := (List.nodup_cons.1 hd.2.1).1
  have hl1 : lookupKey id (restartLoop w now l1 s).1.instances = some inst := by
    rw [restartLoop_not_mem w now l1 id hnotl1 s, hl]
  have hhit := restartOne_hit w now (restartLoop w now l1 s).1 id inst p hl1 he hc ho
  refine ⟨(restartLoop w now l1 s).2,
    (restartLoop w now l2 (restartOne w now (restartLoop w now l1 s).1 id).1).2,
    ?_, ?_, rfl, rfl⟩
  · unfold AppState.handle_auto_restarts
    rw [hsplit, restartLoop_append, restartLoop_cons]
    dsimp only
    rw [hhit]
    dsimp only
    rw [hdelay]
    simp [List.append_assoc]
  · unfold AppState.handle_auto_restarts
    rw [hsplit, restartLoop_append, restartLoop_cons]
    dsimp only
    rw [restartLoop_not_mem w now l2 id hnotl2 _, hhit]
    dsimp only
    exact lookupKey_upsert_self id _ _

/-- Crashed instance configured for auto-restart with a 5s delay. -/
def instCrashed : Instance :=
  { Instance.new 2 0 { cfgX with auto_restart := true } with
      status := .Crashed, pid := some 9, last_error := some "Process exited with status: 1" }

/-- State holding only that crashed instance. -/
def sCrash : AppState :=
  { instances := [(2, instCrashed)], profiles := [], pm := pm0,
    db := [(2, instCrashed)], recent_apps := [] }

/-- Witness for C7 at the concrete crashed instance. -/
theorem c7_auto_restart_delay_and_count_witness :
    ∃ pre post,
      (sCrash.handle_auto_restarts (fun _ => wOK) 6).2 =
        pre ++ [Event.sleep_ms 5000, Event.os_spawn_proc 2 7] ++ post ∧
      lookupKey 2 (sCrash.handle_auto_restarts (fun _ => wOK) 6).1.instances =
        some (instCrashed.increment_restart_count.mark_starting 6 7) ∧
      instCrashed.increment_restart_count.restart_count =
        instCrashed.restart_count + 1 ∧
      (instCrashed.increment_restart_count.mark_starting 6 7).status = .Starting :=
  c7_auto_restart_delay_and_count sCrash (fun _ => wOK) 6 2 instCrashed 7
    (by decide) rfl rfl rfl rfl rfl rfl rfl

end MultiInstance
